import Mathlib

/-!
Shallow embedding of the tracing interceptor layer in
`torch/csrc/autograd/TraceTypeManual.cpp` (namespace `torch::TraceType`).

The five interceptors (`copy_`, `resize_`, `resize_as_`, `detach`, `detach_`)
are translated directly from the source file.  The tracer library and the
dispatcher (`jit::tracer::*`, `c10::Dispatcher`) are not part of the sources;
their definitions here are modelled from the specification (sections 4.1, 4.2
and 5) and each carries a doc comment saying so.

State is passed explicitly.  A `World` holds the optional thread-local tracing
session, the nesting depth of the scoped `NoTracerDispatchMode` guard, and an
event log that records, in program order, the externally meaningful steps each
interceptor performs (node insertion, the ensure-unique step, guard entry and
exit, the redispatch itself, output binding, warnings, binding removal).  The
event log mirrors the statement order of the C++ source line by line.
-/

set_option autoImplicit false

namespace TraceType

/-- A symbolic value in the trace graph: either output slot `slot` of the node
at graph position `node`, or an input to the trace introduced for a runtime
value that entered the traced region unbound. -/
inductive SymValue where
  | nodeOutput (node : Nat) (slot : Nat)
  | traceInput (index : Nat)
deriving DecidableEq, Repr

/-- A trace node: operator name, ordered named inputs, ordered outputs, and
whether a source location was recorded on it (`jit::tracer::recordSourceLocation`). -/
structure Node where
  kind : String
  inputs : List (String × SymValue)
  outputs : List SymValue
  sourceLoc : Bool
deriving DecidableEq, Repr

/-- Modelled from the spec: the Trace Session (section 4.2) owns the trace
graph (`nodes`), the identity map from runtime value identity to the symbolic
value currently representing it (`identMap`), the session's prefer-outplace
flag (`force_outplace` in the source), the warnings emitted to the session,
the marks left by the ensure-unique step, the tracer's argument stash
(`jit::tracer::ArgumentStash`), and a counter for fresh trace inputs. -/
structure TracingState where
  nodes : List Node
  identMap : List (Nat × SymValue)
  force_outplace : Bool
  warnings : List String
  staleMarks : List (String × Nat)
  stash : List (String × List Int)
  freshInput : Nat
deriving DecidableEq, Repr

/-- A runtime tensor, reduced to what the interceptors inspect: its identity
(the `TensorImpl` address, which in-place ops preserve), its storage use count
(`self.storage().use_count()`), and an observable payload. -/
structure Tensor where
  ident : Nat
  storageUse : Nat
  payload : Int
deriving DecidableEq, Repr

/-- An externally meaningful step of an interceptor, logged in program order. -/
inductive Event where
  | insertNode (node : Nat)
  | ensureUnique (name : String) (ident : Nat)
  | guardEnter
  | redispatch (op : String) (tracerDisabled : Bool)
  | guardExit
  | setOutput (ident : Nat)
  | addOutput (node : Nat) (ident : Nat)
  | warnEvent (name : String)
  | delValue (ident : Nat)
deriving DecidableEq, Repr

/-- The thread's world: the optional live tracing session, the nesting depth
of the scoped tracer-disabled mode, and the event log. -/
structure World where
  session : Option TracingState
  noTracerDepth : Nat
  events : List Event
deriving DecidableEq, Repr

/-- Failure of dispatch, from the spec's error taxonomy (section 7). -/
inductive DispatchError where
  | noKernelFound
deriving DecidableEq, Repr

/-- Modelled from the spec: `jit::tracer::isTracing()` — true when the
thread-local session is live. -/
def isTracing (w : World) : Bool :=
  w.session.isSome

/-- Lookup of a runtime identity in the identity map. -/
def lookupIdent (m : List (Nat × SymValue)) (i : Nat) : Option SymValue :=
  match m with
  | [] => none
  | p :: ps => if p.1 = i then some p.2 else lookupIdent ps i

/-- Rebinding: overwrites any prior binding for identity `i` (spec 4.2,
`bind`). -/
def bindIdent (m : List (Nat × SymValue)) (i : Nat) (v : SymValue) :
    List (Nat × SymValue) :=
  (i, v) :: m.filter (fun p => p.1 != i)

/-- Modelled from the spec: `jit::tracer::setValueTrace` — bind a runtime
identity to a symbolic value, overwriting any prior binding. -/
def setValueTrace (ident : Nat) (v : SymValue) (st : TracingState) :
    TracingState :=
  { st with identMap := bindIdent st.identMap ident v }

/-- Modelled from the spec: `jit::tracer::delValueTrace` — remove any binding
for the identity, leaving it unbound (section 4.3, resize policy). -/
def delValueTrace (ident : Nat) (st : TracingState) : TracingState :=
  { st with identMap := st.identMap.filter (fun p => p.1 != ident) }

/-- Modelled from the spec: `jit::tracer::getValueTrace` — return the symbolic
value currently bound to the tensor's identity; an unbound value degrades to a
fresh trace input which is bound on the spot (section 7: interceptors never
let UnboundValue escape). -/
def getValueTrace (t : Tensor) (st : TracingState) : SymValue × TracingState :=
  match lookupIdent st.identMap t.ident with
  | some v => (v, st)
  | none =>
      let v := SymValue.traceInput st.freshInput
      (v, { st with freshInput := st.freshInput + 1,
                    identMap := bindIdent st.identMap t.ident v })

/-- Modelled from the spec: `jit::tracer::ensureUniqueIfOutOfPlaced` — any
other live bindings of this identity must be treated as having gone stale
(section 4.3).  The identity map holds one binding per identity, so the
invalidation is recorded as a mark. -/
def ensureUniqueIfOutOfPlaced (name : String) (t : Tensor) (st : TracingState) :
    TracingState :=
  { st with staleMarks := st.staleMarks ++ [(name, t.ident)] }

/-- Modelled from the spec: `jit::tracer::warn` — emit a named warning to the
session's warning sink (section 6). -/
def warn (name : String) (st : TracingState) : TracingState :=
  { st with warnings := st.warnings ++ [name] }

/-- Modelled from the spec: `jit::tracer::ArgumentStash::popIntArrayRef` —
take and erase the stashed integer-list argument of the given name. -/
def popIntArrayRef (name : String) (st : TracingState) : TracingState :=
  { st with stash := st.stash.filter (fun p => p.1 != name) }

/-- Modelled from the spec: `jit::tracer::addOutput` — add a fresh output slot
to the node at graph position `nid` and bind the runtime identity `ident` to
it (section 4.3, detach policy: the output is attached post-hoc). -/
def addOutput (nid : Nat) (ident : Nat) (st : TracingState) : TracingState :=
  match st.nodes.get? nid with
  | none => st
  | some n =>
      let v := SymValue.nodeOutput nid n.outputs.length
      { st with
          nodes := st.nodes.set nid { n with outputs := n.outputs ++ [v] },
          identMap := bindIdent st.identMap ident v }

/-- Modelled from the spec: the guarded redispatch (sections 4.1 and 5).  The
scoped `NoTracerDispatchMode` guard is entered before the underlying kernel
runs and released on every exit path; the redispatch event records whether the
tracer-disabled mode was active when the real kernel was invoked.  The real
kernel is a parameter: it operates on runtime values only (its own internal
operator calls are dispatched with the tracing capability masked out, so it
never touches the trace session). -/
def guardedRedispatch {α : Type} (op : String) (k : Except DispatchError α)
    (w : World) : Except DispatchError α × World :=
  let w1 := { w with noTracerDepth := w.noTracerDepth + 1,
                     events := w.events ++ [Event.guardEnter] }
  let w2 := { w1 with
      events := w1.events ++ [Event.redispatch op (decide (0 < w1.noTracerDepth))] }
  let w3 := { w2 with noTracerDepth := w2.noTracerDepth - 1,
                      events := w2.events ++ [Event.guardExit] }
  (k, w3)

/-- Tracing prologue of `copy_` (TraceTypeManual.cpp lines 18-36): under
`force_outplace` with a destination whose storage has no other holders, create
an `aten::expand_as` node (inputs `src`, `self`, one output, no source
location recorded in this branch); otherwise insert an `aten::copy_` node with
the value traces of `self` and `src` and record a source location on it.
Returns the node's output value. -/
def copyRecord (self src : Tensor) (st : TracingState) :
    SymValue × TracingState :=
  if st.force_outplace && self.storageUse ≤ 1 then
    let (vsrc, st1) := getValueTrace src st
    let (vself, st2) := getValueTrace self st1
    let nid := st2.nodes.length
    (SymValue.nodeOutput nid 0,
      { st2 with nodes := st2.nodes ++
          [{ kind := "aten::expand_as",
             inputs := [("src", vsrc), ("self", vself)],
             outputs := [SymValue.nodeOutput nid 0],
             sourceLoc := false }] })
  else
    let (vself, st1) := getValueTrace self st
    let (vsrc, st2) := getValueTrace src st1
    let nid := st2.nodes.length
    (SymValue.nodeOutput nid 0,
      { st2 with nodes := st2.nodes ++
          [{ kind := "aten::copy_",
             inputs := [("", vself), ("", vsrc)],
             outputs := [SymValue.nodeOutput nid 0],
             sourceLoc := true }] })

/-- `copy_` interceptor (TraceTypeManual.cpp lines 15-55).  Prologue: when
tracing, record the node and run the ensure-unique step.  Then the guarded
redispatch to the real `aten::copy_` kernel.  Epilogue: when tracing, bind the
destination's identity to the node's output (`setOutput(output, self)`). -/
def copy_ (kernel : Tensor → Tensor → Bool → Except DispatchError Tensor)
    (self src : Tensor) (non_blocking : Bool) (w : World) :
    Except DispatchError Tensor × World :=
  let (output?, w1) :=
    match w.session with
    | some st =>
        let (out, stA) := copyRecord self src st
        let stB := ensureUniqueIfOutOfPlaced
          "copy_ (possibly due to an assignment)" self stA
        (some out,
          { w with session := some stB,
                   events := w.events ++
                     [Event.insertNode st.nodes.length,
                      Event.ensureUnique
                        "copy_ (possibly due to an assignment)" self.ident] })
    | none => (none, w)
  let (res, w2) := guardedRedispatch "aten::copy_" (kernel self src non_blocking) w1
  match res with
  | Except.error e => (Except.error e, w2)
  | Except.ok selfOut =>
      match w2.session, output? with
      | some st, some out =>
          (Except.ok selfOut,
            { w2 with session := some (setValueTrace self.ident out st),
                      events := w2.events ++ [Event.setOutput self.ident] })
      | _, _ => (Except.ok selfOut, w2)

/-- `resize_` interceptor (TraceTypeManual.cpp lines 57-80): when tracing, pop
the stashed `size` argument, warn, and unbind the destination; no node is
created.  Then the guarded redispatch. -/
def resize_ (kernel : Tensor → List Int → Option Nat → Except DispatchError Tensor)
    (self : Tensor) (size : List Int) (optional_memory_format : Option Nat)
    (w : World) : Except DispatchError Tensor × World :=
  let w1 :=
    match w.session with
    | some st =>
        let stA := popIntArrayRef "size" st
        let stB := warn "resize_" stA
        let stC := delValueTrace self.ident stB
        { w with session := some stC,
                 events := w.events ++
                   [Event.warnEvent "resize_", Event.delValue self.ident] }
    | none => w
  let (res, w2) :=
    guardedRedispatch "aten::resize_" (kernel self size optional_memory_format) w1
  (res, w2)

/-- `resize_as_` interceptor (TraceTypeManual.cpp lines 82-103): same policy
as `resize_` without the argument-stash pop. -/
def resize_as_
    (kernel : Tensor → Tensor → Option Nat → Except DispatchError Tensor)
    (self the_template : Tensor) (optional_memory_format : Option Nat)
    (w : World) : Except DispatchError Tensor × World :=
  let w1 :=
    match w.session with
    | some st =>
        let stA := warn "resize_as_" st
        let stB := delValueTrace self.ident stA
        { w with session := some stB,
                 events := w.events ++
                   [Event.warnEvent "resize_as_", Event.delValue self.ident] }
    | none => w
  let (res, w2) :=
    guardedRedispatch "aten::resize_as_"
      (kernel self the_template optional_memory_format) w1
  (res, w2)

/-- Tracing prologue of `detach` and `detach_` (TraceTypeManual.cpp lines
107-114 and 136-142): create an `aten::detach` node with zero declared
outputs, record a source location, add the `self` input, insert it.  Returns
the node's graph position. -/
def detachRecord (self : Tensor) (st : TracingState) : Nat × TracingState :=
  let (vself, st1) := getValueTrace self st
  let nid := st1.nodes.length
  (nid,
    { st1 with nodes := st1.nodes ++
        [{ kind := "aten::detach",
           inputs := [("self", vself)],
           outputs := [],
           sourceLoc := true }] })

/-- `detach` interceptor (TraceTypeManual.cpp lines 105-132): record the node,
redispatch under the guard, then attach the output post-hoc and bind the
result's identity to it. -/
def detach (kernel : Tensor → Except DispatchError Tensor) (self : Tensor)
    (w : World) : Except DispatchError Tensor × World :=
  let (node?, w1) :=
    match w.session with
    | some st =>
        let (nid, stA) := detachRecord self st
        (some nid,
          { w with session := some stA,
                   events := w.events ++ [Event.insertNode nid] })
    | none => (none, w)
  let (res, w2) := guardedRedispatch "aten::detach" (kernel self) w1
  match res with
  | Except.error e => (Except.error e, w2)
  | Except.ok result =>
      match w2.session, node? with
      | some st, some nid =>
          (Except.ok result,
            { w2 with session := some (addOutput nid result.ident st),
                      events := w2.events ++ [Event.addOutput nid result.ident] })
      | _, _ => (Except.ok result, w2)

/-- `detach_` interceptor (TraceTypeManual.cpp lines 134-162): record the node
and run the ensure-unique step, redispatch under the guard, then attach the
output post-hoc and rebind the input's own identity to it. -/
def detach_ (kernel : Tensor → Except DispatchError Tensor) (self : Tensor)
    (w : World) : Except DispatchError Tensor × World :=
  let (node?, w1) :=
    match w.session with
    | some st =>
        let (nid, stA) := detachRecord self st
        let stB := ensureUniqueIfOutOfPlaced "detach_" self stA
        (some nid,
          { w with session := some stB,
                   events := w.events ++
                     [Event.insertNode nid,
                      Event.ensureUnique "detach_" self.ident] })
    | none => (none, w)
  let (res, w2) := guardedRedispatch "aten::detach_" (kernel self) w1
  match res with
  | Except.error e => (Except.error e, w2)
  | Except.ok selfOut =>
      match w2.session, node? with
      | some st, some nid =>
          (Except.ok selfOut,
            { w2 with session := some (addOutput nid self.ident st),
                      events := w2.events ++ [Event.addOutput nid self.ident] })
      | _, _ => (Except.ok selfOut, w2)

/-- Number of nodes in the live session's trace graph (0 when no session). -/
def nodeCount (w : World) : Nat :=
  match w.session with
  | some st => st.nodes.length
  | none => 0

/-- Registration failure, from the spec's error taxonomy (section 7). -/
inductive RegError where
  | duplicateRegistration
deriving DecidableEq, Repr

/-- Modelled from the spec: `register(operatorId, tag, kernel)` on the
capability registry fails with DuplicateRegistration if the pair is already
bound (section 4.1); a fallthrough declaration is a registration for the same
pair and obeys the same contract (section 4.4). -/
def registerKernel (opId tag : String) (entries : List (String × String)) :
    Except RegError (List (String × String)) :=
  if entries.contains (opId, tag) then
    Except.error RegError.duplicateRegistration
  else
    Except.ok (entries ++ [(opId, tag)])

/-- Register a list of operators under one capability tag, in order, stopping
at the first failure. -/
def registerAll (ops : List String) (tag : String)
    (entries : List (String × String)) :
    Except RegError (List (String × String)) :=
  match ops with
  | [] => Except.ok entries
  | o :: os =>
      match registerKernel o tag entries with
      | Except.error e => Except.error e
      | Except.ok es => registerAll os tag es

/-- The operators given tracing interceptors in `TORCH_LIBRARY_IMPL(aten,
Tracer, m)` (TraceTypeManual.cpp lines 165-169). -/
def interceptorOps : List String :=
  ["resize_", "resize_as_", "detach", "detach_", "copy_"]

/-- The operators registered as fallthrough under the Tracer key
(TraceTypeManual.cpp lines 172-179). -/
def fallthroughOps : List String :=
  ["backward", "set_data", "data", "is_leaf", "output_nr", "_version",
   "requires_grad_", "retain_grad"]

/-- The registry entries after the five interceptor registrations. -/
def tracerInterceptorEntries : List (String × String) :=
  interceptorOps.map (fun o => (o, "Tracer"))

/-- The whole `TORCH_LIBRARY_IMPL(aten, Tracer, m)` block: interceptors first,
then the fallthrough declarations, all under the Tracer tag. -/
def tracerLibraryImpl : Except RegError (List (String × String)) :=
  registerAll (interceptorOps ++ fallthroughOps) "Tracer" []

/-- Modelled from the spec: a fallthrough kernel performs redispatch
immediately with no side effect on the trace session (section 4.1); the
tracer-disabled mode is not entered because nothing here needs masking. -/
def callFallthrough {α : Type} (op : String) (k : Except DispatchError α)
    (w : World) : Except DispatchError α × World :=
  (k, { w with events := w.events ++ [Event.redispatch op (decide (0 < w.noTracerDepth))] })

/-- A run of an interceptor is properly guarded when its new events contain the
guard-enter / redispatch-in-disabled-mode / guard-exit bracket and the
tracer-disabled nesting depth is restored on exit. -/
abbrev GuardedRun (op : String) (w w2 : World) : Prop :=
  (∃ pre post : List Event,
      w2.events = w.events ++ pre ++
        (Event.guardEnter :: Event.redispatch op true :: Event.guardExit :: post)) ∧
  w2.noTracerDepth = w.noTracerDepth

/-- Recognizer for the ensure-unique event. -/
def isEnsureUniqueEvent : Event → Bool
  | Event.ensureUnique _ _ => true
  | _ => false

/-- Recognizer for the redispatch event. -/
def isRedispatchEvent : Event → Bool
  | Event.redispatch _ _ => true
  | _ => false

/-- A small live session: identities 0 and 1 enter the trace as trace inputs,
the prefer-outplace flag is set, the graph is empty. -/
def st0 : TracingState :=
  { nodes := [], identMap := [(0, SymValue.traceInput 0), (1, SymValue.traceInput 1)],
    force_outplace := true, warnings := [], staleMarks := [], stash := [],
    freshInput := 2 }

/-- A world with the session `st0` live. -/
def w0 : World := { session := some st0, noTracerDepth := 0, events := [] }

/-- A world with no live session. -/
def wNone : World := { session := none, noTracerDepth := 0, events := [] }

/-- Destination tensor: identity 0, sole holder of its storage. -/
def t0 : Tensor := { ident := 0, storageUse := 1, payload := 0 }

/-- Source tensor: identity 1. -/
def t1 : Tensor := { ident := 1, storageUse := 1, payload := 7 }

/-- Destination tensor whose storage is shared with another holder. -/
def t2 : Tensor := { ident := 0, storageUse := 2, payload := 0 }

/-- A real `copy_` kernel: writes the source payload into the destination. -/
def kCopyOk : Tensor → Tensor → Bool → Except DispatchError Tensor :=
  fun slf src _ => Except.ok { slf with payload := src.payload }

/-- A `copy_` redispatch with no registered real kernel. -/
def kCopyFail : Tensor → Tensor → Bool → Except DispatchError Tensor :=
  fun _ _ _ => Except.error DispatchError.noKernelFound

/-- A real `detach` kernel: returns a fresh tensor (identity 100). -/
def kDetachOk : Tensor → Except DispatchError Tensor :=
  fun slf => Except.ok { ident := 100, storageUse := 1, payload := slf.payload }

/-- A real `detach_` kernel: mutates in place, identity preserved. -/
def kDetachInplaceOk : Tensor → Except DispatchError Tensor :=
  fun slf => Except.ok slf

/-- A unary redispatch with no registered real kernel. -/
def kDetachFail : Tensor → Except DispatchError Tensor :=
  fun _ => Except.error DispatchError.noKernelFound

/-- A real `resize_` kernel. -/
def kResizeOk : Tensor → List Int → Option Nat → Except DispatchError Tensor :=
  fun slf _ _ => Except.ok slf

/-- A real `resize_as_` kernel. -/
def kResizeAsOk : Tensor → Tensor → Option Nat → Except DispatchError Tensor :=
  fun slf _ _ => Except.ok slf

theorem decide_zero_lt_succ (n : Nat) : decide (0 < n + 1) = true := by
  simp

theorem lookupIdent_filter_self (m : List (Nat × SymValue)) (i : Nat) :
    lookupIdent (m.filter (fun p => p.1 != i)) i = none := by
  induction m with
  | nil => rfl
  | cons p ps ih =>
      by_cases h : p.1 = i
      · simp [List.filter_cons, h, ih]
      · have hb : (p.1 != i) = true := by simp [h]
        simp [List.filter_cons, hb, lookupIdent, h, ih]

theorem lookupIdent_bindIdent_self (m : List (Nat × SymValue)) (i : Nat)
    (v : SymValue) : lookupIdent (bindIdent m i v) i = some v := by
  simp [bindIdent, lookupIdent]

theorem getValueTrace_of_bound {t : Tensor} {st : TracingState} {v : SymValue}
    (h : lookupIdent st.identMap t.ident = some v) :
    getValueTrace t st = (v, st) := by
  simp [getValueTrace, h]

theorem get_append_singleton {α : Type} (l : List α) (a : α) :
    (l ++ [a]).get? l.length = some a := by
  induction l with
  | nil => rfl
  | cons x xs ih => simp [ih]

theorem set_append_singleton {α : Type} (l : List α) (a b : α) :
    (l ++ [a]).set l.length b = l ++ [b] := by
  induction l with
  | nil => rfl
  | cons x xs ih => simp [List.set, ih]

theorem copy_run_ok (kernel : Tensor → Tensor → Bool → Except DispatchError Tensor)
    (self src selfOut : Tensor) (nb : Bool) (w : World) (st : TracingState)
    (vself vsrc : SymValue)
    (hs : w.session = some st)
    (hself : lookupIdent st.identMap self.ident = some vself)
    (hsrc : lookupIdent st.identMap src.ident = some vsrc)
    (hk : kernel self src nb = Except.ok selfOut) :
    copy_ kernel self src nb w =
      (Except.ok selfOut,
       { w with
           session := some { st with
             nodes := st.nodes ++
               [if st.force_outplace && self.storageUse ≤ 1 then
                  { kind := "aten::expand_as",
                    inputs := [("src", vsrc), ("self", vself)],
                    outputs := [SymValue.nodeOutput st.nodes.length 0],
                    sourceLoc := false }
                else
                  { kind := "aten::copy_",
                    inputs := [("", vself), ("", vsrc)],
                    outputs := [SymValue.nodeOutput st.nodes.length 0],
                    sourceLoc := true }],
             staleMarks := st.staleMarks ++
               [("copy_ (possibly due to an assignment)", self.ident)],
             identMap := bindIdent st.identMap self.ident
               (SymValue.nodeOutput st.nodes.length 0) },
           events := w.events ++
             [Event.insertNode st.nodes.length,
              Event.ensureUnique "copy_ (possibly due to an assignment)" self.ident,
              Event.guardEnter, Event.redispatch "aten::copy_" true, Event.guardExit,
              Event.setOutput self.ident] }) := by
  by_cases hc : (st.force_outplace && decide (self.storageUse ≤ 1)) = true <;>
    simp [copy_, copyRecord, guardedRedispatch, ensureUniqueIfOutOfPlaced,
          setValueTrace, getValueTrace, hs, hself, hsrc, hk, hc]

theorem copy_run_err (kernel : Tensor → Tensor → Bool → Except DispatchError Tensor)
    (self src : Tensor) (nb : Bool) (w : World) (st : TracingState)
    (vself vsrc : SymValue) (e : DispatchError)
    (hs : w.session = some st)
    (hself : lookupIdent st.identMap self.ident = some vself)
    (hsrc : lookupIdent st.identMap src.ident = some vsrc)
    (hk : kernel self src nb = Except.error e) :
    copy_ kernel self src nb w =
      (Except.error e,
       { w with
           session := some { st with
             nodes := st.nodes ++
               [if st.force_outplace && self.storageUse ≤ 1 then
                  { kind := "aten::expand_as",
                    inputs := [("src", vsrc), ("self", vself)],
                    outputs := [SymValue.nodeOutput st.nodes.length 0],
                    sourceLoc := false }
                else
                  { kind := "aten::copy_",
                    inputs := [("", vself), ("", vsrc)],
                    outputs := [SymValue.nodeOutput st.nodes.length 0],
                    sourceLoc := true }],
             staleMarks := st.staleMarks ++
               [("copy_ (possibly due to an assignment)", self.ident)] },
           events := w.events ++
             [Event.insertNode st.nodes.length,
              Event.ensureUnique "copy_ (possibly due to an assignment)" self.ident,
              Event.guardEnter, Event.redispatch "aten::copy_" true,
              Event.guardExit] }) := by
  by_cases hc : (st.force_outplace && decide (self.storageUse ≤ 1)) = true <;>
    simp [copy_, copyRecord, guardedRedispatch, ensureUniqueIfOutOfPlaced,
          getValueTrace, hs, hself, hsrc, hk, hc]

theorem copy_run_none (kernel : Tensor → Tensor → Bool → Except DispatchError Tensor)
    (self src : Tensor) (nb : Bool) (w : World)
    (hn : w.session = none) :
    copy_ kernel self src nb w =
      (kernel self src nb,
       { w with events := w.events ++
           [Event.guardEnter, Event.redispatch "aten::copy_" true,
            Event.guardExit] }) := by
  cases hk : kernel self src nb <;>
    simp [copy_, guardedRedispatch, hn, hk]

theorem resize_run (kernel : Tensor → List Int → Option Nat → Except DispatchError Tensor)
    (self : Tensor) (size : List Int) (fmt : Option Nat) (w : World)
    (st : TracingState) (hs : w.session = some st) :
    resize_ kernel self size fmt w =
      (kernel self size fmt,
       { w with
           session := some { st with
             stash := st.stash.filter (fun p => p.1 != "size"),
             warnings := st.warnings ++ ["resize_"],
             identMap := st.identMap.filter (fun p => p.1 != self.ident) },
           events := w.events ++
             [Event.warnEvent "resize_", Event.delValue self.ident,
              Event.guardEnter, Event.redispatch "aten::resize_" true,
              Event.guardExit] }) := by
  simp [resize_, popIntArrayRef, warn, delValueTrace, guardedRedispatch, hs]

theorem resize_run_none (kernel : Tensor → List Int → Option Nat → Except DispatchError Tensor)
    (self : Tensor) (size : List Int) (fmt : Option Nat) (w : World)
    (hn : w.session = none) :
    resize_ kernel self size fmt w =
      (kernel self size fmt,
       { w with events := w.events ++
           [Event.guardEnter, Event.redispatch "aten::resize_" true,
            Event.guardExit] }) := by
  simp [resize_, guardedRedispatch, hn]

theorem resize_as_run (kernel : Tensor → Tensor → Option Nat → Except DispatchError Tensor)
    (self tmpl : Tensor) (fmt : Option Nat) (w : World)
    (st : TracingState) (hs : w.session = some st) :
    resize_as_ kernel self tmpl fmt w =
      (kernel self tmpl fmt,
       { w with
           session := some { st with
             warnings := st.warnings ++ ["resize_as_"],
             identMap := st.identMap.filter (fun p => p.1 != self.ident) },
           events := w.events ++
             [Event.warnEvent "resize_as_", Event.delValue self.ident,
              Event.guardEnter, Event.redispatch "aten::resize_as_" true,
              Event.guardExit] }) := by
  simp [resize_as_, warn, delValueTrace, guardedRedispatch, hs]

theorem resize_as_run_none (kernel : Tensor → Tensor → Option Nat → Except DispatchError Tensor)
    (self tmpl : Tensor) (fmt : Option Nat) (w : World)
    (hn : w.session = none) :
    resize_as_ kernel self tmpl fmt w =
      (kernel self tmpl fmt,
       { w with events := w.events ++
           [Event.guardEnter, Event.redispatch "aten::resize_as_" true,
            Event.guardExit] }) := by
  simp [resize_as_, guardedRedispatch, hn]

theorem detach_run_ok (kernel : Tensor → Except DispatchError Tensor)
    (self result : Tensor) (w : World) (st : TracingState) (vself : SymValue)
    (hs : w.session = some st)
    (hself : lookupIdent st.identMap self.ident = some vself)
    (hk : kernel self = Except.ok result) :
    detach kernel self w =
      (Except.ok result,
       { w with
           session := some { st with
             nodes := st.nodes ++
               [{ kind := "aten::detach", inputs := [("self", vself)],
                  outputs := [SymValue.nodeOutput st.nodes.length 0],
                  sourceLoc := true }],
             identMap := bindIdent st.identMap result.ident
               (SymValue.nodeOutput st.nodes.length 0) },
           events := w.events ++
             [Event.insertNode st.nodes.length, Event.guardEnter,
              Event.redispatch "aten::detach" true, Event.guardExit,
              Event.addOutput st.nodes.length result.ident] }) := by
  simp [detach, detachRecord, addOutput, guardedRedispatch, getValueTrace,
        get_append_singleton, set_append_singleton, hs, hself, hk]

theorem detach_run_err (kernel : Tensor → Except DispatchError Tensor)
    (self : Tensor) (w : World) (st : TracingState) (vself : SymValue)
    (e : DispatchError)
    (hs : w.session = some st)
    (hself : lookupIdent st.identMap self.ident = some vself)
    (hk : kernel self = Except.error e) :
    detach kernel self w =
      (Except.error e,
       { w with
           session := some { st with
             nodes := st.nodes ++
               [{ kind := "aten::detach", inputs := [("self", vself)],
                  outputs := [], sourceLoc := true }] },
           events := w.events ++
             [Event.insertNode st.nodes.length, Event.guardEnter,
              Event.redispatch "aten::detach" true, Event.guardExit] }) := by
  simp [detach, detachRecord, guardedRedispatch, getValueTrace, hs, hself, hk]

theorem detach_run_none (kernel : Tensor → Except DispatchError Tensor)
    (self : Tensor) (w : World) (hn : w.session = none) :
    detach kernel self w =
      (kernel self,
       { w with events := w.events ++
           [Event.guardEnter, Event.redispatch "aten::detach" true,
            Event.guardExit] }) := by
  cases hk : kernel self <;> simp [detach, guardedRedispatch, hn, hk]

theorem detachInplace_run_ok (kernel : Tensor → Except DispatchError Tensor)
    (self selfOut : Tensor) (w : World) (st : TracingState) (vself : SymValue)
    (hs : w.session = some st)
    (hself : lookupIdent st.identMap self.ident = some vself)
    (hk : kernel self = Except.ok selfOut) :
    detach_ kernel self w =
      (Except.ok selfOut,
       { w with
           session := some { st with
             nodes := st.nodes ++
               [{ kind := "aten::detach", inputs := [("self", vself)],
                  outputs := [SymValue.nodeOutput st.nodes.length 0],
                  sourceLoc := true }],
             staleMarks := st.staleMarks ++ [("detach_", self.ident)],
             identMap := bindIdent st.identMap self.ident
               (SymValue.nodeOutput st.nodes.length 0) },
           events := w.events ++
             [Event.insertNode st.nodes.length,
              Event.ensureUnique "detach_" self.ident, Event.guardEnter,
              Event.redispatch "aten::detach_" true, Event.guardExit,
              Event.addOutput st.nodes.length self.ident] }) := by
  simp [detach_, detachRecord, ensureUniqueIfOutOfPlaced, addOutput,
        guardedRedispatch, getValueTrace, get_append_singleton,
        set_append_singleton, hs, hself, hk]

theorem detachInplace_run_err (kernel : Tensor → Except DispatchError Tensor)
    (self : Tensor) (w : World) (st : TracingState) (vself : SymValue)
    (e : DispatchError)
    (hs : w.session = some st)
    (hself : lookupIdent st.identMap self.ident = some vself)
    (hk : kernel self = Except.error e) :
    detach_ kernel self w =
      (Except.error e,
       { w with
           session := some { st with
             nodes := st.nodes ++
               [{ kind := "aten::detach", inputs := [("self", vself)],
                  outputs := [], sourceLoc := true }],
             staleMarks := st.staleMarks ++ [("detach_", self.ident)] },
           events := w.events ++
             [Event.insertNode st.nodes.length,
              Event.ensureUnique "detach_" self.ident, Event.guardEnter,
              Event.redispatch "aten::detach_" true, Event.guardExit] }) := by
  simp [detach_, detachRecord, ensureUniqueIfOutOfPlaced, guardedRedispatch,
        getValueTrace, hs, hself, hk]

theorem detachInplace_run_none (kernel : Tensor → Except DispatchError Tensor)
    (self : Tensor) (w : World) (hn : w.session = none) :
    detach_ kernel self w =
      (kernel self,
       { w with events := w.events ++
           [Event.guardEnter, Event.redispatch "aten::detach_" true,
            Event.guardExit] }) := by
  cases hk : kernel self <;> simp [detach_, guardedRedispatch, hn, hk]

theorem copy_guard_shape (kernel : Tensor → Tensor → Bool → Except DispatchError Tensor)
    (self src : Tensor) (nb : Bool) (w : World) :
    GuardedRun "aten::copy_" w (copy_ kernel self src nb w).2 := by
  rcases hs : w.session with _ | st
  · cases hk : kernel self src nb <;>
      exact ⟨⟨[], [], by simp [copy_, hs, hk, guardedRedispatch]⟩,
             by simp [copy_, hs, hk, guardedRedispatch]⟩
  · rcases hcr : copyRecord self src st with ⟨out, stA⟩
    cases hk : kernel self src nb
    · exact ⟨⟨[Event.insertNode st.nodes.length,
               Event.ensureUnique "copy_ (possibly due to an assignment)" self.ident],
              [], by simp [copy_, hs, hcr, hk, guardedRedispatch]⟩,
             by simp [copy_, hs, hcr, hk, guardedRedispatch]⟩
    · exact ⟨⟨[Event.insertNode st.nodes.length,
               Event.ensureUnique "copy_ (possibly due to an assignment)" self.ident],
              [Event.setOutput self.ident],
              by simp [copy_, hs, hcr, hk, guardedRedispatch]⟩,
             by simp [copy_, hs, hcr, hk, guardedRedispatch]⟩

theorem resize_guard_shape (kernel : Tensor → List Int → Option Nat → Except DispatchError Tensor)
    (self : Tensor) (size : List Int) (fmt : Option Nat) (w : World) :
    GuardedRun "aten::resize_" w (resize_ kernel self size fmt w).2 := by
  rcases hs : w.session with _ | st
  · exact ⟨⟨[], [], by simp [resize_, hs, guardedRedispatch]⟩,
           by simp [resize_, hs, guardedRedispatch]⟩
  · exact ⟨⟨[Event.warnEvent "resize_", Event.delValue self.ident], [],
            by simp [resize_, hs, guardedRedispatch]⟩,
           by simp [resize_, hs, guardedRedispatch]⟩

theorem resize_as_guard_shape (kernel : Tensor → Tensor → Option Nat → Except DispatchError Tensor)
    (self tmpl : Tensor) (fmt : Option Nat) (w : World) :
    GuardedRun "aten::resize_as_" w (resize_as_ kernel self tmpl fmt w).2 := by
  rcases hs : w.session with _ | st
  · exact ⟨⟨[], [], by simp [resize_as_, hs, guardedRedispatch]⟩,
           by simp [resize_as_, hs, guardedRedispatch]⟩
  · exact ⟨⟨[Event.warnEvent "resize_as_", Event.delValue self.ident], [],
            by simp [resize_as_, hs, guardedRedispatch]⟩,
           by simp [resize_as_, hs, guardedRedispatch]⟩

theorem detach_guard_shape (kernel : Tensor → Except DispatchError Tensor)
    (self : Tensor) (w : World) :
    GuardedRun "aten::detach" w (detach kernel self w).2 := by
  rcases hs : w.session with _ | st
  · cases hk : kernel self <;>
      exact ⟨⟨[], [], by simp [detach, hs, hk, guardedRedispatch]⟩,
             by simp [detach, hs, hk, guardedRedispatch]⟩
  · rcases hdr : detachRecord self st with ⟨nid, stA⟩
    cases hk : kernel self with
    | error e =>
        exact ⟨⟨[Event.insertNode nid], [],
                by simp [detach, hs, hdr, hk, guardedRedispatch]⟩,
               by simp [detach, hs, hdr, hk, guardedRedispatch]⟩
    | ok result =>
        exact ⟨⟨[Event.insertNode nid], [Event.addOutput nid result.ident],
                by simp [detach, hs, hdr, hk, guardedRedispatch]⟩,
               by simp [detach, hs, hdr, hk, guardedRedispatch]⟩

theorem detachInplace_guard_shape (kernel : Tensor → Except DispatchError Tensor)
    (self : Tensor) (w : World) :
    GuardedRun "aten::detach_" w (detach_ kernel self w).2 := by
  rcases hs : w.session with _ | st
  · cases hk : kernel self <;>
      exact ⟨⟨[], [], by simp [detach_, hs, hk, guardedRedispatch]⟩,
             by simp [detach_, hs, hk, guardedRedispatch]⟩
  · rcases hdr : detachRecord self st with ⟨nid, stA⟩
    cases hk : kernel self with
    | error e =>
        exact ⟨⟨[Event.insertNode nid, Event.ensureUnique "detach_" self.ident],
                [], by simp [detach_, hs, hdr, hk, guardedRedispatch]⟩,
               by simp [detach_, hs, hdr, hk, guardedRedispatch]⟩
    | ok selfOut =>
        exact ⟨⟨[Event.insertNode nid, Event.ensureUnique "detach_" self.ident],
                [Event.addOutput nid self.ident],
                by simp [detach_, hs, hdr, hk, guardedRedispatch]⟩,
               by simp [detach_, hs, hdr, hk, guardedRedispatch]⟩

/-- Claim C1, as stated, is false on the code: with tracing active and a
redispatch that fails with NoKernelFound, `detach` fails but a partial trace
node (with no outputs bound) is left committed in the trace graph — the node
count goes from 0 to 1 and the committed node is the freshly inserted
`aten::detach` node. -/
theorem C1_counterexample :
    (detach kDetachFail t0 w0).1 = Except.error DispatchError.noKernelFound ∧
    nodeCount w0 = 0 ∧
    nodeCount (detach kDetachFail t0 w0).2 = 1 ∧
    (detach kDetachFail t0 w0).2.session.map TracingState.nodes =
      some [{ kind := "aten::detach",
              inputs := [("self", SymValue.traceInput 0)],
              outputs := [], sourceLoc := true }] :=
  ⟨rfl, rfl, rfl, rfl⟩

/-- Claim C1 (amended): if tracing is active and the redispatch to the real
kernel fails with NoKernelFound, the call fails with that error, but each of
the node-recording interceptors (`copy_`, `detach`, `detach_`) has already
inserted its node before attempting the underlying computation and does not
roll it back: the node stays committed in the trace graph and no output
binding is performed (the identity map is unchanged). -/
theorem C1_failure_leaves_node_committed
    (kc : Tensor → Tensor → Bool → Except DispatchError Tensor)
    (kd kdi : Tensor → Except DispatchError Tensor)
    (self src : Tensor) (nb : Bool) (w : World) (st : TracingState)
    (vself vsrc : SymValue)
    (hs : w.session = some st)
    (hself : lookupIdent st.identMap self.ident = some vself)
    (hsrc : lookupIdent st.identMap src.ident = some vsrc)
    (hkc : kc self src nb = Except.error DispatchError.noKernelFound)
    (hkd : kd self = Except.error DispatchError.noKernelFound)
    (hkdi : kdi self = Except.error DispatchError.noKernelFound) :
    ((copy_ kc self src nb w).1 = Except.error DispatchError.noKernelFound ∧
      ∃ st2, (copy_ kc self src nb w).2.session = some st2 ∧
        st2.nodes.length = st.nodes.length + 1 ∧
        st2.identMap = st.identMap) ∧
    ((detach kd self w).1 = Except.error DispatchError.noKernelFound ∧
      ∃ st2, (detach kd self w).2.session = some st2 ∧
        st2.nodes = st.nodes ++
          [{ kind := "aten::detach", inputs := [("self", vself)],
             outputs := [], sourceLoc := true }] ∧
        st2.identMap = st.identMap) ∧
    ((detach_ kdi self w).1 = Except.error DispatchError.noKernelFound ∧
      ∃ st2, (detach_ kdi self w).2.session = some st2 ∧
        st2.nodes = st.nodes ++
          [{ kind := "aten::detach", inputs := [("self", vself)],
             outputs := [], sourceLoc := true }] ∧
        st2.identMap = st.identMap) := by
  rw [copy_run_err kc self src nb w st vself vsrc _ hs hself hsrc hkc,
      detach_run_err kd self w st vself _ hs hself hkd,
      detachInplace_run_err kdi self w st vself _ hs hself hkdi]
  exact ⟨⟨rfl, _, rfl, by simp, rfl⟩, ⟨rfl, _, rfl, rfl, rfl⟩,
         ⟨rfl, _, rfl, rfl, rfl⟩⟩

/-- Claim C2: under an active tracing session, a call to the in-place copy
interceptor whose real kernel succeeds records a single node — tagged
expand-to-shape (`aten::expand_as`) when the session's prefer-outplace flag is
set and the destination has no other live alias (storage use count at most
one), tagged `aten::copy_` otherwise — with the destination's and source's
value traces as its two recorded inputs, and the destination's identity
resolves, after the call returns, to that node's sole output. -/
theorem C2_copy_node_and_rebinding
    (kernel : Tensor → Tensor → Bool → Except DispatchError Tensor)
    (self src selfOut : Tensor) (nb : Bool) (w : World) (st : TracingState)
    (vself vsrc : SymValue)
    (hs : w.session = some st)
    (hself : lookupIdent st.identMap self.ident = some vself)
    (hsrc : lookupIdent st.identMap src.ident = some vsrc)
    (hk : kernel self src nb = Except.ok selfOut) :
    ∃ st2, (copy_ kernel self src nb w).1 = Except.ok selfOut ∧
      (copy_ kernel self src nb w).2.session = some st2 ∧
      st2.nodes = st.nodes ++
        [if st.force_outplace && self.storageUse ≤ 1 then
           { kind := "aten::expand_as",
             inputs := [("src", vsrc), ("self", vself)],
             outputs := [SymValue.nodeOutput st.nodes.length 0],
             sourceLoc := false }
         else
           { kind := "aten::copy_",
             inputs := [("", vself), ("", vsrc)],
             outputs := [SymValue.nodeOutput st.nodes.length 0],
             sourceLoc := true }] ∧
      lookupIdent st2.identMap self.ident =
        some (SymValue.nodeOutput st.nodes.length 0) := by
  rw [copy_run_ok kernel self src selfOut nb w st vself vsrc hs hself hsrc hk]
  exact ⟨_, rfl, rfl, rfl, lookupIdent_bindIdent_self _ _ _⟩

/-- Claim C3: under an active tracing session, `resize_` and `resize_as_`
emit exactly one warning to the session, remove the destination identity's
binding (it is unbound afterward), and create no trace node, regardless of the
destination's prior binding state and of the kernel's outcome. -/
theorem C3_resize_warns_unbinds_no_node
    (k1 : Tensor → List Int → Option Nat → Except DispatchError Tensor)
    (k2 : Tensor → Tensor → Option Nat → Except DispatchError Tensor)
    (self tmpl : Tensor) (size : List Int) (fmt : Option Nat) (w : World)
    (st : TracingState) (hs : w.session = some st) :
    (∃ st2, (resize_ k1 self size fmt w).2.session = some st2 ∧
      st2.warnings = st.warnings ++ ["resize_"] ∧
      lookupIdent st2.identMap self.ident = none ∧
      st2.nodes = st.nodes) ∧
    (∃ st2, (resize_as_ k2 self tmpl fmt w).2.session = some st2 ∧
      st2.warnings = st.warnings ++ ["resize_as_"] ∧
      lookupIdent st2.identMap self.ident = none ∧
      st2.nodes = st.nodes) := by
  rw [resize_run k1 self size fmt w st hs, resize_as_run k2 self tmpl fmt w st hs]
  exact ⟨⟨_, rfl, rfl, lookupIdent_filter_self _ _, rfl⟩,
         ⟨_, rfl, rfl, lookupIdent_filter_self _ _, rfl⟩⟩

/-- Claim C4: under an active tracing session with a succeeding real kernel,
`detach` produces exactly one trace node with the one recorded input `self`
and one output slot added after the redispatched computation, and the returned
value's identity resolves to that output; `detach_` produces the same node
shape but rebinds the input's own identity to that output. -/
theorem C4_detach_node_and_identity
    (kd kdi : Tensor → Except DispatchError Tensor)
    (self result selfOut : Tensor) (w : World) (st : TracingState)
    (vself : SymValue)
    (hs : w.session = some st)
    (hself : lookupIdent st.identMap self.ident = some vself)
    (hk : kd self = Except.ok result)
    (hki : kdi self = Except.ok selfOut) :
    (∃ st2, (detach kd self w).1 = Except.ok result ∧
      (detach kd self w).2.session = some st2 ∧
      st2.nodes = st.nodes ++
        [{ kind := "aten::detach", inputs := [("self", vself)],
           outputs := [SymValue.nodeOutput st.nodes.length 0],
           sourceLoc := true }] ∧
      lookupIdent st2.identMap result.ident =
        some (SymValue.nodeOutput st.nodes.length 0) ∧
      (detach kd self w).2.events = w.events ++
        [Event.insertNode st.nodes.length, Event.guardEnter,
         Event.redispatch "aten::detach" true, Event.guardExit,
         Event.addOutput st.nodes.length result.ident]) ∧
    (∃ st2, (detach_ kdi self w).1 = Except.ok selfOut ∧
      (detach_ kdi self w).2.session = some st2 ∧
      st2.nodes = st.nodes ++
        [{ kind := "aten::detach", inputs := [("self", vself)],
           outputs := [SymValue.nodeOutput st.nodes.length 0],
           sourceLoc := true }] ∧
      lookupIdent st2.identMap self.ident =
        some (SymValue.nodeOutput st.nodes.length 0) ∧
      (detach_ kdi self w).2.events = w.events ++
        [Event.insertNode st.nodes.length,
         Event.ensureUnique "detach_" self.ident, Event.guardEnter,
         Event.redispatch "aten::detach_" true, Event.guardExit,
         Event.addOutput st.nodes.length self.ident]) := by
  rw [detach_run_ok kd self result w st vself hs hself hk,
      detachInplace_run_ok kdi self selfOut w st vself hs hself hki]
  exact ⟨⟨_, rfl, rfl, rfl, lookupIdent_bindIdent_self _ _ _, rfl⟩,
         ⟨_, rfl, rfl, rfl, lookupIdent_bindIdent_self _ _ _, rfl⟩⟩

/-- Claim C5: with no active session, every one of the five interceptors is a
pure pass-through: the returned value is exactly the underlying kernel's
result, the trace session is untouched, and the tracer-disabled depth is
restored. -/
theorem C5_no_session_passthrough
    (k1 : Tensor → Tensor → Bool → Except DispatchError Tensor)
    (k2 : Tensor → List Int → Option Nat → Except DispatchError Tensor)
    (k3 : Tensor → Tensor → Option Nat → Except DispatchError Tensor)
    (k4 k5 : Tensor → Except DispatchError Tensor)
    (self src tmpl : Tensor) (nb : Bool) (size : List Int) (fmt : Option Nat)
    (w : World) (hn : w.session = none) :
    ((copy_ k1 self src nb w).1 = k1 self src nb ∧
      (copy_ k1 self src nb w).2.session = w.session ∧
      (copy_ k1 self src nb w).2.noTracerDepth = w.noTracerDepth) ∧
    ((resize_ k2 self size fmt w).1 = k2 self size fmt ∧
      (resize_ k2 self size fmt w).2.session = w.session ∧
      (resize_ k2 self size fmt w).2.noTracerDepth = w.noTracerDepth) ∧
    ((resize_as_ k3 self tmpl fmt w).1 = k3 self tmpl fmt ∧
      (resize_as_ k3 self tmpl fmt w).2.session = w.session ∧
      (resize_as_ k3 self tmpl fmt w).2.noTracerDepth = w.noTracerDepth) ∧
    ((detach k4 self w).1 = k4 self ∧
      (detach k4 self w).2.session = w.session ∧
      (detach k4 self w).2.noTracerDepth = w.noTracerDepth) ∧
    ((detach_ k5 self w).1 = k5 self ∧
      (detach_ k5 self w).2.session = w.session ∧
      (detach_ k5 self w).2.noTracerDepth = w.noTracerDepth) := by
  rw [copy_run_none k1 self src nb w hn, resize_run_none k2 self size fmt w hn,
      resize_as_run_none k3 self tmpl fmt w hn, detach_run_none k4 self w hn,
      detachInplace_run_none k5 self w hn]
  exact ⟨⟨rfl, rfl, rfl⟩, ⟨rfl, rfl, rfl⟩, ⟨rfl, rfl, rfl⟩,
         ⟨rfl, rfl, rfl⟩, ⟨rfl, rfl, rfl⟩⟩

/-- Claim C6: in every interceptor the redispatch to the underlying real
kernel executes inside the scoped tracer-disabled mode: the event trace
brackets the redispatch — which observes the disabled mode — between guard
entry and guard exit, and the guard's nesting depth is restored on every exit
path, for any session state and any kernel outcome including failure. -/
theorem C6_redispatch_guarded
    (k1 : Tensor → Tensor → Bool → Except DispatchError Tensor)
    (k2 : Tensor → List Int → Option Nat → Except DispatchError Tensor)
    (k3 : Tensor → Tensor → Option Nat → Except DispatchError Tensor)
    (k4 k5 : Tensor → Except DispatchError Tensor)
    (self src tmpl : Tensor) (nb : Bool) (size : List Int) (fmt : Option Nat)
    (w : World) :
    GuardedRun "aten::copy_" w (copy_ k1 self src nb w).2 ∧
    GuardedRun "aten::resize_" w (resize_ k2 self size fmt w).2 ∧
    GuardedRun "aten::resize_as_" w (resize_as_ k3 self tmpl fmt w).2 ∧
    GuardedRun "aten::detach" w (detach k4 self w).2 ∧
    GuardedRun "aten::detach_" w (detach_ k5 self w).2 :=
  ⟨copy_guard_shape k1 self src nb w, resize_guard_shape k2 self size fmt w,
   resize_as_guard_shape k3 self tmpl fmt w, detach_guard_shape k4 self w,
   detachInplace_guard_shape k5 self w⟩

/-- Claim C7: the fallthrough-declared operators are disjoint from the
operators with tracing interceptors; registering fallthrough for an operator
that already has a tracing interceptor fails with DuplicateRegistration; the
registration block itself succeeds; and calling a fallthrough-declared
operator never changes the trace graph's node count, whether or not a session
is active. -/
theorem C7_fallthrough_contract :
    (fallthroughOps.all (fun o => !(interceptorOps.contains o))) = true ∧
    (interceptorOps.all (fun o =>
        match registerKernel o "Tracer" tracerInterceptorEntries with
        | Except.error RegError.duplicateRegistration => true
        | Except.ok _ => false)) = true ∧
    registerAll interceptorOps "Tracer" [] = Except.ok tracerInterceptorEntries ∧
    tracerLibraryImpl =
      Except.ok (tracerInterceptorEntries ++
        fallthroughOps.map (fun o => (o, "Tracer"))) ∧
    (∀ (α : Type) (op : String) (k : Except DispatchError α) (w : World),
      nodeCount (callFallthrough op k w).2 = nodeCount w ∧
      (callFallthrough op k w).1 = k) :=
  ⟨rfl, rfl, rfl, rfl, fun _ _ _ _ => ⟨rfl, rfl⟩⟩

/-- Claim C8, as stated, is false on the code: in a concrete traced run of
both `copy_` and `detach_`, the single ensure-unique event sits at index 1 of
the event trace, before the redispatch event at index 3 — the invalidation of
stale alias bindings happens before the redispatch, not after it. -/
theorem C8_counterexample :
    ((copy_ kCopyOk t0 t1 false w0).2.events.findIdx isEnsureUniqueEvent = 1 ∧
     (copy_ kCopyOk t0 t1 false w0).2.events.findIdx isRedispatchEvent = 3 ∧
     ((copy_ kCopyOk t0 t1 false w0).2.events.filter isEnsureUniqueEvent).length = 1) ∧
    ((detach_ kDetachInplaceOk t0 w0).2.events.findIdx isEnsureUniqueEvent = 1 ∧
     (detach_ kDetachInplaceOk t0 w0).2.events.findIdx isRedispatchEvent = 3 ∧
     ((detach_ kDetachInplaceOk t0 w0).2.events.filter isEnsureUniqueEvent).length = 1) :=
  ⟨⟨rfl, rfl, rfl⟩, ⟨rfl, rfl, rfl⟩⟩

/-- Claim C8 (amended): for `copy_` and `detach_` under an active tracing
session, the rebinding of the destination's identity to the node's output
happens after the redispatch to the underlying kernel, but the ensure-unique
invalidation step happens before the redispatch, immediately after the node is
inserted. -/
theorem C8_rebind_after_ensure_unique_before
    (kc : Tensor → Tensor → Bool → Except DispatchError Tensor)
    (kdi : Tensor → Except DispatchError Tensor)
    (self src selfOut selfOut2 : Tensor) (nb : Bool) (w : World)
    (st : TracingState) (vself vsrc : SymValue)
    (hs : w.session = some st)
    (hself : lookupIdent st.identMap self.ident = some vself)
    (hsrc : lookupIdent st.identMap src.ident = some vsrc)
    (hk : kc self src nb = Except.ok selfOut)
    (hki : kdi self = Except.ok selfOut2) :
    (copy_ kc self src nb w).2.events = w.events ++
      [Event.insertNode st.nodes.length,
       Event.ensureUnique "copy_ (possibly due to an assignment)" self.ident,
       Event.guardEnter, Event.redispatch "aten::copy_" true, Event.guardExit,
       Event.setOutput self.ident] ∧
    (detach_ kdi self w).2.events = w.events ++
      [Event.insertNode st.nodes.length,
       Event.ensureUnique "detach_" self.ident, Event.guardEnter,
       Event.redispatch "aten::detach_" true, Event.guardExit,
       Event.addOutput st.nodes.length self.ident] := by
  rw [copy_run_ok kc self src selfOut nb w st vself vsrc hs hself hsrc hk,
      detachInplace_run_ok kdi self selfOut2 w st vself hs hself hki]
  exact ⟨rfl, rfl⟩

/-- Claim C9, as stated, is false on the code: in a concrete traced run of
`copy_` taking the expand-to-shape branch, the single node created carries no
source location. -/
theorem C9_counterexample :
    (copy_ kCopyOk t0 t1 false w0).2.session.map TracingState.nodes =
      some [{ kind := "aten::expand_as",
              inputs := [("src", SymValue.traceInput 1),
                         ("self", SymValue.traceInput 0)],
              outputs := [SymValue.nodeOutput 0 0], sourceLoc := false }] ∧
    (copy_ kCopyOk t0 t1 false w0).2.session.map
      (fun s => s.nodes.map Node.sourceLoc) = some [false] :=
  ⟨rfl, rfl⟩

/-- Claim C9 (amended): `detach`, `detach_`, and the in-place branch of
`copy_` record a source location on the node they create, but the
expand-to-shape branch of `copy_` does not. -/
theorem C9_source_locations
    (kc : Tensor → Tensor → Bool → Except DispatchError Tensor)
    (kd kdi : Tensor → Except DispatchError Tensor)
    (self src selfOut result selfOut2 : Tensor) (nb : Bool) (w : World)
    (st : TracingState) (vself vsrc : SymValue)
    (hs : w.session = some st)
    (hself : lookupIdent st.identMap self.ident = some vself)
    (hsrc : lookupIdent st.identMap src.ident = some vsrc)
    (hk : kc self src nb = Except.ok selfOut)
    (hkd : kd self = Except.ok result)
    (hkdi : kdi self = Except.ok selfOut2) :
    (copy_ kc self src nb w).2.session.map
        (fun s => s.nodes.map Node.sourceLoc) =
      some (st.nodes.map Node.sourceLoc ++
        [if st.force_outplace && self.storageUse ≤ 1 then false else true]) ∧
    (detach kd self w).2.session.map
        (fun s => s.nodes.map Node.sourceLoc) =
      some (st.nodes.map Node.sourceLoc ++ [true]) ∧
    (detach_ kdi self w).2.session.map
        (fun s => s.nodes.map Node.sourceLoc) =
      some (st.nodes.map Node.sourceLoc ++ [true]) := by
  rw [copy_run_ok kc self src selfOut nb w st vself vsrc hs hself hsrc hk,
      detach_run_ok kd self result w st vself hs hself hkd,
      detachInplace_run_ok kdi self selfOut2 w st vself hs hself hkdi]
  refine ⟨?_, by simp, by simp⟩
  by_cases hc : (st.force_outplace && decide (self.storageUse ≤ 1)) = true <;>
    simp [hc]

/-- Claim C10: the out-of-place branch condition of the in-place copy
interceptor tests the destination's storage use count: when the destination's
storage is shared with another holder (use count above one), a plain
`aten::copy_` node is recorded even though the prefer-outplace flag is set. -/
theorem C10_shared_storage_forces_copy_node
    (kernel : Tensor → Tensor → Bool → Except DispatchError Tensor)
    (self src selfOut : Tensor) (nb : Bool) (w : World) (st : TracingState)
    (vself vsrc : SymValue)
    (hs : w.session = some st)
    (hself : lookupIdent st.identMap self.ident = some vself)
    (hsrc : lookupIdent st.identMap src.ident = some vsrc)
    (hk : kernel self src nb = Except.ok selfOut)
    (hflag : st.force_outplace = true)
    (huse : 1 < self.storageUse) :
    (st.force_outplace && self.storageUse ≤ 1) = false ∧
    ∃ st2, (copy_ kernel self src nb w).2.session = some st2 ∧
      st2.nodes = st.nodes ++
        [{ kind := "aten::copy_", inputs := [("", vself), ("", vsrc)],
           outputs := [SymValue.nodeOutput st.nodes.length 0],
           sourceLoc := true }] := by
  have hc : (st.force_outplace && decide (self.storageUse ≤ 1)) = false := by
    simp only [hflag, Bool.true_and, decide_eq_false_iff_not, Nat.not_le]
    exact huse
  rw [copy_run_ok kernel self src selfOut nb w st vself vsrc hs hself hsrc hk]
  exact ⟨hc, _, rfl, by simp [hc]⟩

/-- Concrete instance of the amended claim C1: failing redispatches on the
world `w0` with destination `t0` and source `t1`. -/
theorem C1_witness :
    w0.session = some st0 ∧
    lookupIdent st0.identMap t0.ident = some (SymValue.traceInput 0) ∧
    lookupIdent st0.identMap t1.ident = some (SymValue.traceInput 1) ∧
    kCopyFail t0 t1 false = Except.error DispatchError.noKernelFound ∧
    kDetachFail t0 = Except.error DispatchError.noKernelFound ∧
    (((copy_ kCopyFail t0 t1 false w0).1 = Except.error DispatchError.noKernelFound ∧
       ∃ st2, (copy_ kCopyFail t0 t1 false w0).2.session = some st2 ∧
         st2.nodes.length = st0.nodes.length + 1 ∧
         st2.identMap = st0.identMap) ∧
     ((detach kDetachFail t0 w0).1 = Except.error DispatchError.noKernelFound ∧
       ∃ st2, (detach kDetachFail t0 w0).2.session = some st2 ∧
         st2.nodes = st0.nodes ++
           [{ kind := "aten::detach", inputs := [("self", SymValue.traceInput 0)],
              outputs := [], sourceLoc := true }] ∧
         st2.identMap = st0.identMap) ∧
     ((detach_ kDetachFail t0 w0).1 = Except.error DispatchError.noKernelFound ∧
       ∃ st2, (detach_ kDetachFail t0 w0).2.session = some st2 ∧
         st2.nodes = st0.nodes ++
           [{ kind := "aten::detach", inputs := [("self", SymValue.traceInput 0)],
              outputs := [], sourceLoc := true }] ∧
         st2.identMap = st0.identMap)) :=
  ⟨rfl, rfl, rfl, rfl, rfl,
   C1_failure_leaves_node_committed kCopyFail kDetachFail kDetachFail t0 t1
     false w0 st0 (SymValue.traceInput 0) (SymValue.traceInput 1)
     rfl rfl rfl rfl rfl rfl⟩

/-- Concrete instance of claim C2: copying `t1` into `t0` on the world `w0`
(prefer-outplace set, storage use count 1) takes the expand-to-shape branch. -/
theorem C2_witness :
    w0.session = some st0 ∧
    lookupIdent st0.identMap t0.ident = some (SymValue.traceInput 0) ∧
    lookupIdent st0.identMap t1.ident = some (SymValue.traceInput 1) ∧
    kCopyOk t0 t1 false =
      Except.ok { ident := 0, storageUse := 1, payload := 7 } ∧
    (∃ st2, (copy_ kCopyOk t0 t1 false w0).1 =
        Except.ok { ident := 0, storageUse := 1, payload := 7 } ∧
      (copy_ kCopyOk t0 t1 false w0).2.session = some st2 ∧
      st2.nodes = st0.nodes ++
        [if st0.force_outplace && t0.storageUse ≤ 1 then
           { kind := "aten::expand_as",
             inputs := [("src", SymValue.traceInput 1),
                        ("self", SymValue.traceInput 0)],
             outputs := [SymValue.nodeOutput st0.nodes.length 0],
             sourceLoc := false }
         else
           { kind := "aten::copy_",
             inputs := [("", SymValue.traceInput 0), ("", SymValue.traceInput 1)],
             outputs := [SymValue.nodeOutput st0.nodes.length 0],
             sourceLoc := true }] ∧
      lookupIdent st2.identMap t0.ident =
        some (SymValue.nodeOutput st0.nodes.length 0)) :=
  ⟨rfl, rfl, rfl, rfl,
   C2_copy_node_and_rebinding kCopyOk t0 t1
     { ident := 0, storageUse := 1, payload := 7 } false w0 st0
     (SymValue.traceInput 0) (SymValue.traceInput 1) rfl rfl rfl rfl⟩

/-- Concrete instance of claim C3: resizing `t0` on the world `w0`. -/
theorem C3_witness :
    w0.session = some st0 ∧
    ((∃ st2, (resize_ kResizeOk t0 [3] none w0).2.session = some st2 ∧
       st2.warnings = st0.warnings ++ ["resize_"] ∧
       lookupIdent st2.identMap t0.ident = none ∧
       st2.nodes = st0.nodes) ∧
     (∃ st2, (resize_as_ kResizeAsOk t0 t1 none w0).2.session = some st2 ∧
       st2.warnings = st0.warnings ++ ["resize_as_"] ∧
       lookupIdent st2.identMap t0.ident = none ∧
       st2.nodes = st0.nodes)) :=
  ⟨rfl, C3_resize_warns_unbinds_no_node kResizeOk kResizeAsOk t0 t1 [3] none
    w0 st0 rfl⟩

/-- Concrete instance of claim C4: detaching `t0` on the world `w0`, where
the real `detach` kernel returns the fresh tensor with identity 100. -/
theorem C4_witness :
    w0.session = some st0 ∧
    lookupIdent st0.identMap t0.ident = some (SymValue.traceInput 0) ∧
    kDetachOk t0 = Except.ok { ident := 100, storageUse := 1, payload := 0 } ∧
    kDetachInplaceOk t0 = Except.ok t0 ∧
    ((∃ st2, (detach kDetachOk t0 w0).1 =
        Except.ok { ident := 100, storageUse := 1, payload := 0 } ∧
      (detach kDetachOk t0 w0).2.session = some st2 ∧
      st2.nodes = st0.nodes ++
        [{ kind := "aten::detach", inputs := [("self", SymValue.traceInput 0)],
           outputs := [SymValue.nodeOutput st0.nodes.length 0],
           sourceLoc := true }] ∧
      lookupIdent st2.identMap
          (Tensor.ident { ident := 100, storageUse := 1, payload := 0 }) =
        some (SymValue.nodeOutput st0.nodes.length 0) ∧
      (detach kDetachOk t0 w0).2.events = w0.events ++
        [Event.insertNode st0.nodes.length, Event.guardEnter,
         Event.redispatch "aten::detach" true, Event.guardExit,
         Event.addOutput st0.nodes.length
           (Tensor.ident { ident := 100, storageUse := 1, payload := 0 })]) ∧
     (∃ st2, (detach_ kDetachInplaceOk t0 w0).1 = Except.ok t0 ∧
      (detach_ kDetachInplaceOk t0 w0).2.session = some st2 ∧
      st2.nodes = st0.nodes ++
        [{ kind := "aten::detach", inputs := [("self", SymValue.traceInput 0)],
           outputs := [SymValue.nodeOutput st0.nodes.length 0],
           sourceLoc := true }] ∧
      lookupIdent st2.identMap t0.ident =
        some (SymValue.nodeOutput st0.nodes.length 0) ∧
      (detach_ kDetachInplaceOk t0 w0).2.events = w0.events ++
        [Event.insertNode st0.nodes.length,
         Event.ensureUnique "detach_" t0.ident, Event.guardEnter,
         Event.redispatch "aten::detach_" true, Event.guardExit,
         Event.addOutput st0.nodes.length t0.ident])) :=
  ⟨rfl, rfl, rfl, rfl,
   C4_detach_node_and_identity kDetachOk kDetachInplaceOk t0
     { ident := 100, storageUse := 1, payload := 0 } t0 w0 st0
     (SymValue.traceInput 0) rfl rfl rfl rfl⟩

/-- Concrete instance of claim C5: all five interceptors on the sessionless
world `wNone`. -/
theorem C5_witness :
    wNone.session = none ∧
    (((copy_ kCopyOk t0 t1 false wNone).1 = kCopyOk t0 t1 false ∧
       (copy_ kCopyOk t0 t1 false wNone).2.session = wNone.session ∧
       (copy_ kCopyOk t0 t1 false wNone).2.noTracerDepth = wNone.noTracerDepth) ∧
     ((resize_ kResizeOk t0 [3] none wNone).1 = kResizeOk t0 [3] none ∧
       (resize_ kResizeOk t0 [3] none wNone).2.session = wNone.session ∧
       (resize_ kResizeOk t0 [3] none wNone).2.noTracerDepth = wNone.noTracerDepth) ∧
     ((resize_as_ kResizeAsOk t0 t1 none wNone).1 = kResizeAsOk t0 t1 none ∧
       (resize_as_ kResizeAsOk t0 t1 none wNone).2.session = wNone.session ∧
       (resize_as_ kResizeAsOk t0 t1 none wNone).2.noTracerDepth = wNone.noTracerDepth) ∧
     ((detach kDetachOk t0 wNone).1 = kDetachOk t0 ∧
       (detach kDetachOk t0 wNone).2.session = wNone.session ∧
       (detach kDetachOk t0 wNone).2.noTracerDepth = wNone.noTracerDepth) ∧
     ((detach_ kDetachInplaceOk t0 wNone).1 = kDetachInplaceOk t0 ∧
       (detach_ kDetachInplaceOk t0 wNone).2.session = wNone.session ∧
       (detach_ kDetachInplaceOk t0 wNone).2.noTracerDepth = wNone.noTracerDepth)) :=
  ⟨rfl, C5_no_session_passthrough kCopyOk kResizeOk kResizeAsOk kDetachOk
    kDetachInplaceOk t0 t1 t1 false [3] none wNone rfl⟩

/-- Concrete instance of the amended claim C8: the event traces of `copy_`
and `detach_` on the world `w0`. -/
theorem C8_witness :
    w0.session = some st0 ∧
    kCopyOk t0 t1 false =
      Except.ok { ident := 0, storageUse := 1, payload := 7 } ∧
    kDetachInplaceOk t0 = Except.ok t0 ∧
    ((copy_ kCopyOk t0 t1 false w0).2.events = w0.events ++
      [Event.insertNode st0.nodes.length,
       Event.ensureUnique "copy_ (possibly due to an assignment)" t0.ident,
       Event.guardEnter, Event.redispatch "aten::copy_" true, Event.guardExit,
       Event.setOutput t0.ident] ∧
     (detach_ kDetachInplaceOk t0 w0).2.events = w0.events ++
      [Event.insertNode st0.nodes.length,
       Event.ensureUnique "detach_" t0.ident, Event.guardEnter,
       Event.redispatch "aten::detach_" true, Event.guardExit,
       Event.addOutput st0.nodes.length t0.ident]) :=
  ⟨rfl, rfl, rfl,
   C8_rebind_after_ensure_unique_before kCopyOk kDetachInplaceOk t0 t1
     { ident := 0, storageUse := 1, payload := 7 } t0 false w0 st0
     (SymValue.traceInput 0) (SymValue.traceInput 1) rfl rfl rfl rfl rfl⟩

/-- Concrete instance of the amended claim C9: source-location flags of the
nodes created on the world `w0`. -/
theorem C9_witness :
    w0.session = some st0 ∧
    ((copy_ kCopyOk t0 t1 false w0).2.session.map
        (fun s => s.nodes.map Node.sourceLoc) =
      some (st0.nodes.map Node.sourceLoc ++
        [if st0.force_outplace && t0.storageUse ≤ 1 then false else true]) ∧
     (detach kDetachOk t0 w0).2.session.map
        (fun s => s.nodes.map Node.sourceLoc) =
      some (st0.nodes.map Node.sourceLoc ++ [true]) ∧
     (detach_ kDetachInplaceOk t0 w0).2.session.map
        (fun s => s.nodes.map Node.sourceLoc) =
      some (st0.nodes.map Node.sourceLoc ++ [true])) :=
  ⟨rfl,
   C9_source_locations kCopyOk kDetachOk kDetachInplaceOk t0 t1
     { ident := 0, storageUse := 1, payload := 7 }
     { ident := 100, storageUse := 1, payload := 0 } t0 false w0 st0
     (SymValue.traceInput 0) (SymValue.traceInput 1)
     rfl rfl rfl rfl rfl rfl⟩

/-- Concrete instance of claim C10: destination `t2` shares its storage
(use count 2), so even under prefer-outplace the interceptor records a plain
copy node. -/
theorem C10_witness :
    w0.session = some st0 ∧
    st0.force_outplace = true ∧
    1 < t2.storageUse ∧
    ((st0.force_outplace && t2.storageUse ≤ 1) = false ∧
     ∃ st2, (copy_ kCopyOk t2 t1 false w0).2.session = some st2 ∧
       st2.nodes = st0.nodes ++
         [{ kind := "aten::copy_",
            inputs := [("", SymValue.traceInput 0), ("", SymValue.traceInput 1)],
            outputs := [SymValue.nodeOutput st0.nodes.length 0],
            sourceLoc := true }]) :=
  ⟨rfl, rfl, by decide,
   C10_shared_storage_forces_copy_node kCopyOk t2 t1
     { ident := 0, storageUse := 2, payload := 7 } false w0 st0
     (SymValue.traceInput 0) (SymValue.traceInput 1)
     rfl rfl rfl rfl rfl (by decide)⟩

end TraceType
